import Mathlib

/-!
Verification development for the VimeoGrabber GUI repository.

The Python sources (`VimeoGrabber_GUI_v.1.1.2.py`, `vimeograb_gui.py`) are
shallowly embedded below: text is modelled as `List Char` (Python `str.lower`
is modelled ASCII-wise by `Char.toLower`, which agrees with Python on the
ASCII patterns the heuristics use), subprocess invocations are modelled as
oracle functions from argument lists to captured results, and the GUI-thread
side effects are modelled as explicit event lists.
-/

set_option maxRecDepth 20000

namespace VimeoGrab

/-- Python `s.lower()` restricted to ASCII case mapping. -/
def pyLower (s : List Char) : List Char := s.map Char.toLower

/-- Python's `pat in s` substring test on text. -/
def containsSub (s pat : List Char) : Bool := decide (pat <:+: s)

/-- Embeds `_is_ssl_related_error` (VimeoGrabber_GUI_v.1.1.2.py lines 121-129):
lower-case the text, then match the disjunction of substring indicators, in the
source's order (including the `"sslc"` disjunct present in the code). -/
def is_ssl_related_error (text : List Char) : Bool :=
  containsSub (pyLower text) "certificate_verify_failed".toList
    || containsSub (pyLower text) "unable to get local issuer certificate".toList
    || containsSub (pyLower text) "sslc".toList
    || (containsSub (pyLower text) "tls".toList && containsSub (pyLower text) "handshake".toList)
    || containsSub (pyLower text) "ssl:".toList

/-- Embeds `_is_vimeo_login_required_error` (lines 140-148). -/
def is_vimeo_login_required_error (text : List Char) : Bool :=
  containsSub (pyLower text) "only works when logged-in".toList
    || containsSub (pyLower text) "provide account credentials".toList
    || containsSub (pyLower text) "use --cookies".toList
    || containsSub (pyLower text) "use --cookies-from-browser".toList
    || (containsSub (pyLower text) "login".toList && containsSub (pyLower text) "vimeo".toList)

/-- Embeds `_is_chrome_cookie_copy_error` (lines 150-152). -/
def is_chrome_cookie_copy_error (text : List Char) : Bool :=
  containsSub (pyLower text) "could not copy chrome cookie database".toList

/-- An infix of a list maps to an infix of the mapped list. -/
theorem infix_map {α β : Type} (f : α → β) {w s : List α} (h : w <:+: s) :
    w.map f <:+: s.map f := by
  obtain ⟨t, u, rfl⟩ := h
  exact ⟨t.map f, u.map f, by simp⟩

/-- If the lower-casing of some infix of `s` is `pat`, then `pat` is an infix
of `pyLower s`. -/
theorem lower_infix_of_witness {s w pat : List Char}
    (hw : w <:+: s) (hl : pyLower w = pat) : pat <:+: pyLower s := by
  subst hl
  exact infix_map Char.toLower hw

/-- C6: the SSL-failure heuristic is case-insensitive substring matching: it
returns true for every text containing `certificate_verify_failed` in any
case, or `unable to get local issuer certificate`, or both `tls` and
`handshake` anywhere (independent of position), or `ssl:`. "Contains in any
case" is rendered as: some infix of the text lower-cases to the pattern. -/
theorem C6_ssl_heuristic_sufficient (s : List Char)
    (h : (∃ w, w <:+: s ∧ pyLower w = "certificate_verify_failed".toList)
      ∨ (∃ w, w <:+: s ∧ pyLower w = "unable to get local issuer certificate".toList)
      ∨ ((∃ w, w <:+: s ∧ pyLower w = "tls".toList)
          ∧ (∃ w, w <:+: s ∧ pyLower w = "handshake".toList))
      ∨ (∃ w, w <:+: s ∧ pyLower w = "ssl:".toList)) :
    is_ssl_related_error s = true := by
  unfold is_ssl_related_error containsSub
  simp only [Bool.or_eq_true, Bool.and_eq_true, decide_eq_true_eq]
  rcases h with ⟨w, hw, hl⟩ | ⟨w, hw, hl⟩ | ⟨⟨w1, hw1, hl1⟩, ⟨w2, hw2, hl2⟩⟩ | ⟨w, hw, hl⟩
  · exact Or.inl (Or.inl (Or.inl (Or.inl (lower_infix_of_witness hw hl))))
  · exact Or.inl (Or.inl (Or.inl (Or.inr (lower_infix_of_witness hw hl))))
  · exact Or.inl (Or.inr ⟨lower_infix_of_witness hw1 hl1, lower_infix_of_witness hw2 hl2⟩)
  · exact Or.inr (lower_infix_of_witness hw hl)

/-- C6 witness: a concrete upper-case `CERTIFICATE_VERIFY_FAILED` text
triggers the heuristic. -/
theorem C6_ssl_heuristic_sufficient_witness :
    is_ssl_related_error "ERROR: CERTIFICATE_VERIFY_FAILED while fetching".toList = true :=
  C6_ssl_heuristic_sufficient _
    (Or.inl ⟨"CERTIFICATE_VERIFY_FAILED".toList, by decide, by decide⟩)

/-- C7: the login-required heuristic returns true for every text containing
both `login` and `vimeo`, in any case combination, anywhere in the text. -/
theorem C7_login_heuristic_sufficient (s : List Char)
    (h1 : ∃ w, w <:+: s ∧ pyLower w = "login".toList)
    (h2 : ∃ w, w <:+: s ∧ pyLower w = "vimeo".toList) :
    is_vimeo_login_required_error s = true := by
  obtain ⟨w1, hw1, hl1⟩ := h1
  obtain ⟨w2, hw2, hl2⟩ := h2
  unfold is_vimeo_login_required_error containsSub
  simp only [Bool.or_eq_true, Bool.and_eq_true, decide_eq_true_eq]
  exact Or.inr ⟨lower_infix_of_witness hw1 hl1, lower_infix_of_witness hw2 hl2⟩

/-- C7 witness: a concrete mixed-case text containing `LOGIN` and `Vimeo`
triggers the heuristic. -/
theorem C7_login_heuristic_sufficient_witness :
    is_vimeo_login_required_error "Vimeo says: LOGIN required".toList = true :=
  C7_login_heuristic_sufficient _
    ⟨"LOGIN".toList, by decide, by decide⟩
    ⟨"Vimeo".toList, by decide, by decide⟩

/-- Embeds `_format_recent_lines(lines, limit=30)` (lines 131-138): join the
last `limit` lines with newlines (Python `list(lines)[-limit:]`; `[-0:]` is
the whole list, which the `limit = 0` branch mirrors). -/
def format_recent_lines (lines : List String) (limit : Nat) : String :=
  if lines.isEmpty then ""
  else
    let tail := if limit = 0 then lines else lines.drop (lines.length - limit)
    String.intercalate "\n" tail

/-- One `append` on a `collections.deque(maxlen=maxlen)`: the new element is
added on the right and the leftmost elements are discarded down to `maxlen`. -/
def dequeAppend (maxlen : Nat) (q : List String) (x : String) : List String :=
  let q2 := q ++ [x]
  q2.drop (q2.length - maxlen)

/-- Feeding a sequence of output lines into an initially empty bounded deque,
as `download_video.run_once` does with `output_tail = deque(maxlen=200)`. -/
def feedLines (maxlen : Nat) (lines : List String) : List String :=
  lines.foldl (dequeAppend maxlen) []

theorem dequeAppend_eq (maxlen : Nat) (q : List String) (x : String) :
    dequeAppend maxlen q x = (q ++ [x]).drop ((q ++ [x]).length - maxlen) := rfl

/-- Folding `dequeAppend` over lines keeps exactly the trailing `maxlen`
elements of accumulator-plus-lines. -/
theorem foldl_dequeAppend (maxlen : Nat) (lines : List String) :
    ∀ acc : List String, acc.length ≤ maxlen →
      lines.foldl (dequeAppend maxlen) acc
        = (acc ++ lines).drop ((acc ++ lines).length - maxlen) := by
  induction lines with
  | nil => intro acc hacc; simp [Nat.sub_eq_zero_of_le hacc]
  | cons x rest ih =>
      intro acc hacc
      rw [List.foldl_cons, ih (dequeAppend maxlen acc x) (by
        rw [dequeAppend_eq]
        simp only [List.length_drop]
        omega)]
      rw [dequeAppend_eq]
      have hk : (acc ++ [x]).length - maxlen ≤ (acc ++ [x]).length := Nat.sub_le _ _
      have hassoc : (acc ++ [x]) ++ rest = acc ++ x :: rest := by simp
      rw [← List.drop_append_of_le_length hk, List.drop_drop, hassoc]
      congr 1
      simp only [List.length_drop, List.length_append, List.length_cons, List.length_nil]
      omega

/-- C9: output-tail truncation keeps the most recent lines in original order:
after feeding any line sequence into the 200-line-bounded tail, the tail is
the suffix of the input dropping all but the last 200 lines, and formatting
it (with the call site's default 30-line limit) prints the last lines in
input order; in particular 250 lines leave exactly the last 200, in order. -/
theorem C9_output_tail_truncation (lines : List String) :
    feedLines 200 lines = lines.drop (lines.length - 200)
      ∧ format_recent_lines (feedLines 200 lines) 30
          = String.intercalate "\n" (lines.drop (lines.length - 30))
      ∧ (lines.length = 250 → feedLines 200 lines = lines.drop 50) := by
  have hfeed : feedLines 200 lines = lines.drop (lines.length - 200) := by
    unfold feedLines
    rw [foldl_dequeAppend 200 lines [] (by simp)]
    simp
  refine ⟨hfeed, ?_, fun h250 => by rw [hfeed, h250]⟩
  rw [hfeed]
  unfold format_recent_lines
  rcases lines with - | ⟨l, ls⟩
  · simp [String.intercalate]
  · have hne : ¬((l :: ls).drop ((l :: ls).length - 200)).isEmpty = true := by
      simp only [List.isEmpty_iff, ← List.length_eq_zero, List.length_drop]
      simp only [List.length_cons]
      omega
    rw [if_neg hne]
    simp only [if_neg (by omega : ¬(30 : Nat) = 0), List.drop_drop, List.length_drop]
    congr 2
    simp only [List.length_cons]
    omega

/-- C9 witness: feeding a concrete 250-line sequence into the 200-line cap
leaves exactly the last 200 lines, in original order. -/
theorem C9_output_tail_truncation_witness :
    feedLines 200 ((List.range 250).map toString)
      = ((List.range 250).map toString).drop 50 :=
  (C9_output_tail_truncation ((List.range 250).map toString)).2.2 (by simp)

/-- Result of one `run_info` subprocess invocation (`hidden_subprocess` with
captured stdout/stderr and `check=False`). -/
structure RunResult where
  returncode : Int
  stdout : String
  stderr : String
deriving DecidableEq, Repr

/-- Embeds `error_text` inside `get_video_information`:
`(res.stderr or "") + "\n" + (res.stdout or "")`. -/
def error_text (r : RunResult) : String := r.stderr ++ "\n" ++ r.stdout

/-- An information-fetch oracle: maps `(auth_args, transport_args)` to the
subprocess result, standing for `run_info` in `get_video_information`. -/
abbrev InfoRunner := List String → List String → RunResult

/-- Embeds `_get_browser_cookie_sources` (lines 154-178): detection flags for
the chrome/edge/firefox profile directories (always all-false off Windows),
collected in detection order, then filtered into the fixed preference order;
when nothing was detected the full preferred list is returned. -/
def browser_cookie_sources (chromeDetected edgeDetected firefoxDetected : Bool) : List String :=
  let sources := (if chromeDetected then ["chrome"] else [])
      ++ (if edgeDetected then ["edge"] else [])
      ++ (if firefoxDetected then ["firefox"] else [])
  let preferred := ["chrome", "edge", "firefox"]
  if sources.isEmpty then preferred else preferred.filter (fun b => sources.contains b)

/-- Embeds the `auth_candidates` construction in `get_video_information`
(lines 751-756): the local cookie file first when present, then one candidate
per entry of `_get_browser_cookie_sources()`. -/
def auth_candidates (cookies_path : Option String)
    (chromeDetected edgeDetected firefoxDetected : Bool) : List (List String × String) :=
  (match cookies_path with
    | some p => [(["--cookies", p], "cookies_file")]
    | none => [])
  ++ (browser_cookie_sources chromeDetected edgeDetected firefoxDetected).map
      (fun b => (["--cookies-from-browser", b], "browser:" ++ b))

/-- Modelled from the claim's wording (for comparison only): the candidate
list as "the local cookie file first (only if present), then each
locally-detected browser cookie store in the fixed order chrome, edge,
firefox" — with no fallback when nothing is detected. -/
def auth_candidates_claimed (cookies_path : Option String)
    (chromeDetected edgeDetected firefoxDetected : Bool) : List (List String × String) :=
  (match cookies_path with
    | some p => [(["--cookies", p], "cookies_file")]
    | none => [])
  ++ (((if chromeDetected then ["chrome"] else [])
      ++ (if edgeDetected then ["edge"] else [])
      ++ (if firefoxDetected then ["firefox"] else [])).map
      (fun b => (["--cookies-from-browser", b], "browser:" ++ b)))

/-- The session fields set by `get_video_information` and reused by
`download_video`. -/
structure FetchState where
  ytdlp_auth_args : List String
  ytdlp_transport_args : List String
  ytdlp_auth_source : String
deriving DecidableEq, Repr

/-- Result of the authentication-candidate loop. -/
structure TryResult where
  state : FetchState
  last : RunResult
  cookie_copy_failed : Bool
  trace : List (List String × List String)
deriving DecidableEq, Repr

/-- Embeds the `for auth_args, source in auth_candidates` loop of
`get_video_information` (lines 758-776): each candidate runs with the
persisted transport args; the chrome-cookie-copy heuristic is checked on that
first run; a failing candidate whose output is SSL-related is retried once
with `--no-check-certificate` when no transport override is active yet; the
first candidate whose (possibly retried) run exits zero has its auth args,
transport args and source label persisted, and the loop stops. `trace`
records every `run_info` invocation as an `(auth_args, transport_args)`
pair, in order. -/
def tryCandidates (run : InfoRunner) :
    FetchState → Bool → List (List String × String) → RunResult → TryResult
  | st, ccf, [], last => ⟨st, last, ccf, []⟩
  | st, ccf, (authArgs, source) :: rest, _last =>
    let transportArgs := st.ytdlp_transport_args
    let r0 := run authArgs transportArgs
    let ccf1 := ccf || is_chrome_cookie_copy_error (error_text r0).toList
    if r0.returncode ≠ 0 ∧ transportArgs = []
        ∧ is_ssl_related_error (error_text r0).toList = true then
      let r1 := run authArgs ["--no-check-certificate"]
      if r1.returncode = 0 then
        ⟨⟨authArgs, ["--no-check-certificate"], source⟩, r1, ccf1,
          [(authArgs, transportArgs), (authArgs, ["--no-check-certificate"])]⟩
      else
        let res := tryCandidates run st ccf1 rest r1
        ⟨res.state, res.last, res.cookie_copy_failed,
          (authArgs, transportArgs) :: (authArgs, ["--no-check-certificate"]) :: res.trace⟩
    else
      if r0.returncode = 0 then
        ⟨⟨authArgs, transportArgs, source⟩, r0, ccf1, [(authArgs, transportArgs)]⟩
      else
        let res := tryCandidates run st ccf1 rest r0
        ⟨res.state, res.last, res.cookie_copy_failed, (authArgs, transportArgs) :: res.trace⟩

/-- Outcome of the network portion of `get_video_information`. -/
structure FetchOutcome where
  state : FetchState
  result : RunResult
  login_required : Bool
  cookie_copy_failed : Bool
  trace : List (List String × List String)
deriving DecidableEq, Repr

/-- Embeds the pre-login part of `get_video_information` (lines 737-744):
the unauthenticated run, and a single `--no-check-certificate` retry when it
failed with SSL-related output, persisting the override only when the retry
succeeds. Returns the session state so far, the current result, and the trace
of `run_info` invocations as `(auth_args, transport_args)` pairs. -/
def fetch_pre (run : InfoRunner) : FetchState × RunResult × List (List String × List String) :=
  if (run [] []).returncode ≠ 0
      ∧ is_ssl_related_error (error_text (run [] [])).toList = true then
    if (run [] ["--no-check-certificate"]).returncode = 0 then
      (⟨[], ["--no-check-certificate"], ""⟩, run [] ["--no-check-certificate"],
        [([], []), ([], ["--no-check-certificate"])])
    else
      (⟨[], [], ""⟩, run [] ["--no-check-certificate"],
        [([], []), ([], ["--no-check-certificate"])])
  else (⟨[], [], ""⟩, run [] [], [([], [])])

/-- Embeds the network portion of `get_video_information` (lines 718-776):
the pre-login step (`fetch_pre`), then, when its result failed with
login-required output, the authentication-candidate loop over
`auth_candidates`. -/
def get_video_information (run : InfoRunner) (cookies_path : Option String)
    (chromeDetected edgeDetected firefoxDetected : Bool) : FetchOutcome :=
  if ((fetch_pre run).2.1).returncode ≠ 0
      ∧ is_vimeo_login_required_error (error_text (fetch_pre run).2.1).toList = true then
    ⟨(tryCandidates run (fetch_pre run).1 false
        (auth_candidates cookies_path chromeDetected edgeDetected firefoxDetected)
        (fetch_pre run).2.1).state,
     (tryCandidates run (fetch_pre run).1 false
        (auth_candidates cookies_path chromeDetected edgeDetected firefoxDetected)
        (fetch_pre run).2.1).last,
     true,
     (tryCandidates run (fetch_pre run).1 false
        (auth_candidates cookies_path chromeDetected edgeDetected firefoxDetected)
        (fetch_pre run).2.1).cookie_copy_failed,
     (fetch_pre run).2.2 ++ (tryCandidates run (fetch_pre run).1 false
        (auth_candidates cookies_path chromeDetected edgeDetected firefoxDetected)
        (fetch_pre run).2.1).trace⟩
  else
    ⟨(fetch_pre run).1, (fetch_pre run).2.1, false, false, (fetch_pre run).2.2⟩

/-- A candidate whose runs all fail is skipped: the loop records its
invocations (all with that candidate's auth args) and continues on the rest
with the session state unchanged. -/
theorem tryCandidates_skip (run : InfoRunner) (a : List String) (src : String)
    (hfail : ∀ t, (run a t).returncode ≠ 0)
    (st : FetchState) (ccf : Bool) (rest : List (List String × String)) (last : RunResult) :
    ∃ (ccf2 : Bool) (r2 : RunResult) (tr2 : List (List String × List String)),
      tryCandidates run st ccf ((a, src) :: rest) last =
        ⟨(tryCandidates run st ccf2 rest r2).state,
         (tryCandidates run st ccf2 rest r2).last,
         (tryCandidates run st ccf2 rest r2).cookie_copy_failed,
         tr2 ++ (tryCandidates run st ccf2 rest r2).trace⟩
      ∧ ∀ pr ∈ tr2, pr.1 = a := by
  by_cases hssl : (run a st.ytdlp_transport_args).returncode ≠ 0
      ∧ st.ytdlp_transport_args = []
      ∧ is_ssl_related_error (error_text (run a st.ytdlp_transport_args)).toList = true
  · refine ⟨ccf || is_chrome_cookie_copy_error (error_text (run a st.ytdlp_transport_args)).toList,
      run a ["--no-check-certificate"],
      [(a, st.ytdlp_transport_args), (a, ["--no-check-certificate"])], ?_, ?_⟩
    · simp only [tryCandidates]
      rw [if_pos hssl, if_neg (hfail ["--no-check-certificate"])]
      rfl
    · intro pr hpr
      simp only [List.mem_cons, List.not_mem_nil, or_false] at hpr
      rcases hpr with rfl | rfl <;> rfl
  · refine ⟨ccf || is_chrome_cookie_copy_error (error_text (run a st.ytdlp_transport_args)).toList,
      run a st.ytdlp_transport_args, [(a, st.ytdlp_transport_args)], ?_, ?_⟩
    · simp only [tryCandidates]
      rw [if_neg hssl, if_neg (hfail st.ytdlp_transport_args)]
      rfl
    · intro pr hpr
      simp only [List.mem_cons, List.not_mem_nil, or_false] at hpr
      subst hpr
      rfl

/-- A candidate whose first run succeeds is selected: its auth args, the
transport args it ran with and its source label are persisted, the loop stops
with exactly this one invocation recorded. -/
theorem tryCandidates_success_head (run : InfoRunner) (a : List String) (src : String)
    (st : FetchState) (ccf : Bool) (rest : List (List String × String)) (last : RunResult)
    (hsucc : (run a st.ytdlp_transport_args).returncode = 0) :
    tryCandidates run st ccf ((a, src) :: rest) last =
      ⟨⟨a, st.ytdlp_transport_args, src⟩, run a st.ytdlp_transport_args,
        ccf || is_chrome_cookie_copy_error (error_text (run a st.ytdlp_transport_args)).toList,
        [(a, st.ytdlp_transport_args)]⟩ := by
  simp only [tryCandidates]
  rw [if_neg (by simp [hsucc]), if_pos hsucc]

/-- If the override retry fails, the pre-login step leaves the session state
at its initial (no auth, no transport override) value. -/
theorem fetch_pre_state (run : InfoRunner)
    (hra : (run [] ["--no-check-certificate"]).returncode ≠ 0) :
    (fetch_pre run).1 = ⟨[], [], ""⟩ := by
  unfold fetch_pre
  by_cases hssl : (run [] []).returncode ≠ 0
      ∧ is_ssl_related_error (error_text (run [] [])).toList = true
  · rw [if_pos hssl, if_neg hra]
  · rw [if_neg hssl]

/-- The pre-login result is always an unauthenticated run. -/
theorem fetch_pre_result (run : InfoRunner) :
    ∃ t, (fetch_pre run).2.1 = run [] t := by
  unfold fetch_pre
  by_cases hssl : (run [] []).returncode ≠ 0
      ∧ is_ssl_related_error (error_text (run [] [])).toList = true
  · rw [if_pos hssl]
    by_cases hra : (run [] ["--no-check-certificate"]).returncode = 0
    · rw [if_pos hra]; exact ⟨["--no-check-certificate"], rfl⟩
    · rw [if_neg hra]; exact ⟨["--no-check-certificate"], rfl⟩
  · rw [if_neg hssl]; exact ⟨[], rfl⟩

/-- Every invocation recorded by the pre-login step is unauthenticated. -/
theorem fetch_pre_trace (run : InfoRunner) :
    ∀ pr ∈ (fetch_pre run).2.2, pr.1 = ([] : List String) := by
  unfold fetch_pre
  by_cases hssl : (run [] []).returncode ≠ 0
      ∧ is_ssl_related_error (error_text (run [] [])).toList = true
  · rw [if_pos hssl]
    by_cases hra : (run [] ["--no-check-certificate"]).returncode = 0
    · rw [if_pos hra]
      intro pr hpr
      simp only [List.mem_cons, List.not_mem_nil, or_false] at hpr
      rcases hpr with rfl | rfl <;> rfl
    · rw [if_neg hra]
      intro pr hpr
      simp only [List.mem_cons, List.not_mem_nil, or_false] at hpr
      rcases hpr with rfl | rfl <;> rfl
  · rw [if_neg hssl]
    intro pr hpr
    simp only [List.mem_cons, List.not_mem_nil, or_false] at hpr
    subst hpr
    rfl

/-- C1 counterexample: with no cookie file and no locally-detected browser
cookie store, the claim's build rule yields an empty candidate list, but the
code still emits all three browser candidates (the `preferred` fallback in
`_get_browser_cookie_sources`). -/
theorem C1_no_detection_counterexample :
    auth_candidates none false false false ≠ auth_candidates_claimed none false false false := by
  decide

/-- C1 (amended): the candidate list is the local cookie file first (only if
present), then the locally-detected browser stores in the fixed order chrome,
edge, firefox — except that when no browser store is detected all three
browsers are included in that order as a fallback; and for any login-required
fetch in which every candidate before edge fails and edge succeeds, the
recorded auth source is `browser:edge` and no candidate after edge is
invoked. -/
theorem C1_auth_candidate_order_amended (run : InfoRunner) (p : String)
    (hu_rc : ∀ t, (run [] t).returncode ≠ 0)
    (hu_login : ∀ t, is_vimeo_login_required_error (error_text (run [] t)).toList = true)
    (hck : ∀ t, (run ["--cookies", p] t).returncode ≠ 0)
    (hch : ∀ t, (run ["--cookies-from-browser", "chrome"] t).returncode ≠ 0)
    (he : ∀ t, (run ["--cookies-from-browser", "edge"] t).returncode = 0) :
    (∀ (cp : Option String) (c e f : Bool),
        auth_candidates cp c e f =
          (match cp with
            | some q => [(["--cookies", q], "cookies_file")]
            | none => [])
          ++ ((if c || e || f then
                (if c then ["chrome"] else []) ++ (if e then ["edge"] else [])
                  ++ (if f then ["firefox"] else [])
              else ["chrome", "edge", "firefox"]).map
              (fun b => (["--cookies-from-browser", b], "browser:" ++ b))))
    ∧ (get_video_information run (some p) true true true).state.ytdlp_auth_source
        = "browser:edge"
    ∧ ∀ tArgs, (["--cookies-from-browser", "firefox"], tArgs)
        ∉ (get_video_information run (some p) true true true).trace := by
  have hbuild : ∀ (cp : Option String) (c e f : Bool),
      auth_candidates cp c e f =
        (match cp with
          | some q => [(["--cookies", q], "cookies_file")]
          | none => [])
        ++ ((if c || e || f then
              (if c then ["chrome"] else []) ++ (if e then ["edge"] else [])
                ++ (if f then ["firefox"] else [])
            else ["chrome", "edge", "firefox"]).map
            (fun b => (["--cookies-from-browser", b], "browser:" ++ b))) := by
    intro cp c e f
    rcases cp with - | q <;> cases c <;> cases e <;> cases f <;> rfl
  have hst : (fetch_pre run).1 = ⟨[], [], ""⟩ := fetch_pre_state run (hu_rc _)
  obtain ⟨t0, ht0⟩ := fetch_pre_result run
  have hlogin : ((fetch_pre run).2.1).returncode ≠ 0
      ∧ is_vimeo_login_required_error (error_text (fetch_pre run).2.1).toList = true := by
    rw [ht0]; exact ⟨hu_rc t0, hu_login t0⟩
  have hcands : auth_candidates (some p) true true true =
      (["--cookies", p], "cookies_file")
        :: (["--cookies-from-browser", "chrome"], "browser:chrome")
        :: (["--cookies-from-browser", "edge"], "browser:edge")
        :: [(["--cookies-from-browser", "firefox"], "browser:firefox")] := rfl
  obtain ⟨ccf1, rr1, trc1, heq1, htr1⟩ :=
    tryCandidates_skip run ["--cookies", p] "cookies_file" hck ⟨[], [], ""⟩ false
      ((["--cookies-from-browser", "chrome"], "browser:chrome")
        :: (["--cookies-from-browser", "edge"], "browser:edge")
        :: [(["--cookies-from-browser", "firefox"], "browser:firefox")])
      ((fetch_pre run).2.1)
  obtain ⟨ccf2, rr2, trc2, heq2, htr2⟩ :=
    tryCandidates_skip run ["--cookies-from-browser", "chrome"] "browser:chrome" hch
      ⟨[], [], ""⟩ ccf1
      ((["--cookies-from-browser", "edge"], "browser:edge")
        :: [(["--cookies-from-browser", "firefox"], "browser:firefox")])
      rr1
  have heq3 :=
    tryCandidates_success_head run ["--cookies-from-browser", "edge"] "browser:edge"
      ⟨[], [], ""⟩ ccf2 [(["--cookies-from-browser", "firefox"], "browser:firefox")] rr2
      (he _)
  have hloop : tryCandidates run (fetch_pre run).1 false
      (auth_candidates (some p) true true true) ((fetch_pre run).2.1) =
      ⟨⟨["--cookies-from-browser", "edge"], [], "browser:edge"⟩,
        run ["--cookies-from-browser", "edge"] [],
        ccf2 || is_chrome_cookie_copy_error
          (error_text (run ["--cookies-from-browser", "edge"] [])).toList,
        trc1 ++ (trc2 ++ [(["--cookies-from-browser", "edge"], [])])⟩ := by
    rw [hst, hcands, heq1, heq2, heq3]
  refine ⟨hbuild, ?_, ?_⟩
  · unfold get_video_information
    rw [if_pos hlogin, hloop]
  · intro tArgs
    unfold get_video_information
    rw [if_pos hlogin, hloop]
    intro hmem
    simp only [List.mem_append, List.mem_cons, List.not_mem_nil, or_false] at hmem
    rcases hmem with h | (h | (h | h))
    · have := fetch_pre_trace run _ h
      simp at this
    · have := htr1 _ h
      simp at this
    · have := htr2 _ h
      simp at this
    · have : (["--cookies-from-browser", "firefox"], tArgs)
          = (["--cookies-from-browser", "edge"], ([] : List String)) := h
      simp at this

/-- A simulated tool that succeeds only with edge browser cookies and
otherwise fails demanding a Vimeo login. -/
def edgeOnlyRunner : InfoRunner := fun auth _t =>
  if auth = ["--cookies-from-browser", "edge"] then ⟨0, "dump", ""⟩
  else ⟨1, "", "ERROR: This video requires login to Vimeo"⟩

theorem edgeOnlyRunner_fails_on (auth : List String)
    (h : auth ≠ ["--cookies-from-browser", "edge"]) (t : List String) :
    (edgeOnlyRunner auth t).returncode ≠ 0 := by
  simp only [edgeOnlyRunner]
  rw [if_neg h]
  decide

theorem edgeOnlyRunner_login (t : List String) :
    is_vimeo_login_required_error (error_text (edgeOnlyRunner [] t)).toList = true := by
  simp only [edgeOnlyRunner]
  rw [if_neg (by decide)]
  decide

theorem edgeOnlyRunner_edge_ok (t : List String) :
    (edgeOnlyRunner ["--cookies-from-browser", "edge"] t).returncode = 0 := by
  simp [edgeOnlyRunner]

/-- C1 amended witness: a concrete tool simulation failing for the cookie
file and chrome and succeeding on edge records `browser:edge`. -/
theorem C1_auth_candidate_order_amended_witness :
    (get_video_information edgeOnlyRunner (some "cookies.txt") true true true).state.ytdlp_auth_source
      = "browser:edge" :=
  (C1_auth_candidate_order_amended edgeOnlyRunner "cookies.txt"
    (edgeOnlyRunner_fails_on [] (by decide))
    edgeOnlyRunner_login
    (edgeOnlyRunner_fails_on ["--cookies", "cookies.txt"] (by decide))
    (edgeOnlyRunner_fails_on ["--cookies-from-browser", "chrome"] (by decide))
    edgeOnlyRunner_edge_ok).2.1

/-- If every override-enabled invocation fails, the candidate loop never
persists a transport override: an empty persisted override state stays
empty. -/
theorem tryCandidates_keeps_empty_transport (run : InfoRunner)
    (hfail : ∀ a, (run a ["--no-check-certificate"]).returncode ≠ 0) :
    ∀ (cands : List (List String × String)) (st : FetchState) (ccf : Bool) (last : RunResult),
      st.ytdlp_transport_args = [] →
      (tryCandidates run st ccf cands last).state.ytdlp_transport_args = [] := by
  intro cands
  induction cands with
  | nil => intro st ccf last h; exact h
  | cons cand rest ih =>
      intro st ccf last h
      obtain ⟨a, src⟩ := cand
      by_cases hssl : (run a st.ytdlp_transport_args).returncode ≠ 0
          ∧ st.ytdlp_transport_args = []
          ∧ is_ssl_related_error (error_text (run a st.ytdlp_transport_args)).toList = true
      · simp only [tryCandidates]
        rw [if_pos hssl, if_neg (hfail a)]
        exact ih st _ _ h
      · by_cases hrc : (run a st.ytdlp_transport_args).returncode = 0
        · simp only [tryCandidates]
          rw [if_neg hssl, if_pos hrc]
          exact h
        · simp only [tryCandidates]
          rw [if_neg hssl, if_neg hrc]
          exact ih st _ _ h

/-- C8: the transport override is persisted only when the override-enabled
retry succeeds: if every invocation carrying `--no-check-certificate` (the
initial retry or any per-candidate retry) exits non-zero, the session's
persisted transport-override state stays empty. -/
theorem C8_override_persist_only_on_success (run : InfoRunner) (cookies_path : Option String)
    (chromeDetected edgeDetected firefoxDetected : Bool)
    (hfail : ∀ a, (run a ["--no-check-certificate"]).returncode ≠ 0) :
    (get_video_information run cookies_path
        chromeDetected edgeDetected firefoxDetected).state.ytdlp_transport_args = [] := by
  have hst : (fetch_pre run).1 = ⟨[], [], ""⟩ := fetch_pre_state run (hfail [])
  unfold get_video_information
  by_cases hlogin : ((fetch_pre run).2.1).returncode ≠ 0
      ∧ is_vimeo_login_required_error (error_text (fetch_pre run).2.1).toList = true
  · rw [if_pos hlogin]
    exact tryCandidates_keeps_empty_transport run hfail _ _ _ _ (by rw [hst])
  · rw [if_neg hlogin]
    rw [hst]

/-- A simulated tool on which every invocation fails with SSL-related
login-demanding output. -/
def alwaysFailRunner : InfoRunner := fun _auth _t =>
  ⟨1, "", "ERROR: certificate_verify_failed ... please login to vimeo"⟩

theorem alwaysFailRunner_fails (a : List String) :
    (alwaysFailRunner a ["--no-check-certificate"]).returncode ≠ 0 := by
  simp [alwaysFailRunner]

/-- C8 witness: with a tool whose override-enabled retries all fail, the
fetch ends with an empty persisted transport override. -/
theorem C8_override_persist_only_on_success_witness :
    (get_video_information alwaysFailRunner (some "cookies.txt")
        true true true).state.ytdlp_transport_args = [] :=
  C8_override_persist_only_on_success alwaysFailRunner (some "cookies.txt") true true true
    alwaysFailRunner_fails

/-- Per-download configuration read by `download_video` in
VimeoGrabber_GUI_v.1.1.2.py (`ffmpegDir` stands for
`os.path.dirname(ffmpeg_path)` when ffmpeg was found). -/
structure DownloadConfig where
  ytdlpPath : String
  ffmpegDir : Option String
  selected_quality : String
  download_path : String
  vimeo_url : String
deriving DecidableEq, Repr

/-- The `--progress-template` value passed by `download_video`. -/
def progress_template : String :=
  "%(progress._percent_str)s|%(progress._speed_str)s|%(progress._eta_str)s"

/-- The format/quality selection block of `run_once` (lines 1177-1183). -/
def format_args (q : String) : List String :=
  if q = "best" then ["--format", "bestvideo+bestaudio/best"]
  else if q = "worst" then ["--format", "worstvideo+worstaudio/worst"]
  else ["--format", "bestvideo[height<=" ++ q ++ "]+bestaudio/best[height<=" ++ q ++ "]"]

/-- Embeds the command construction in `download_video.run_once`
(lines 1160-1186): base flags, the session's auth and transport args, the
progress flags, the optional ffmpeg location, the retry's extra args, then
format, paths, output template, and URL. -/
def download_cmd (cfg : DownloadConfig) (auth transport extra : List String) : List String :=
  [cfg.ytdlpPath, "--ignore-config"] ++ auth ++ transport
    ++ ["--newline", "--progress-template", progress_template]
    ++ (match cfg.ffmpegDir with
        | some d => ["--ffmpeg-location", d]
        | none => [])
    ++ extra
    ++ format_args cfg.selected_quality
    ++ ["--paths", cfg.download_path, "--output", "%(title)s.%(ext)s", cfg.vimeo_url]

/-- The part of the download command that does not depend on the session's
auth/transport state. -/
def download_cmd_rest (cfg : DownloadConfig) (extra : List String) : List String :=
  ["--newline", "--progress-template", progress_template]
    ++ (match cfg.ffmpegDir with
        | some d => ["--ffmpeg-location", d]
        | none => [])
    ++ extra
    ++ format_args cfg.selected_quality
    ++ ["--paths", cfg.download_path, "--output", "%(title)s.%(ext)s", cfg.vimeo_url]

theorem download_cmd_decomp (cfg : DownloadConfig) (auth transport extra : List String) :
    download_cmd cfg auth transport extra
      = [cfg.ytdlpPath, "--ignore-config"] ++ auth ++ transport
          ++ download_cmd_rest cfg extra := by
  simp [download_cmd, download_cmd_rest]

/-- C2: a download started after an information fetch in the same session
builds its command with exactly the auth and transport flags that the fetch
persisted (`ytdlp_auth_args`, `ytdlp_transport_args`), verbatim and in
place, followed by material that does not depend on them; when the fetch
established no flags the download command carries none. -/
theorem C2_download_reuses_fetch_flags (run : InfoRunner) (cookies_path : Option String)
    (chromeDetected edgeDetected firefoxDetected : Bool) (cfg : DownloadConfig) :
    (download_cmd cfg
        (get_video_information run cookies_path
          chromeDetected edgeDetected firefoxDetected).state.ytdlp_auth_args
        (get_video_information run cookies_path
          chromeDetected edgeDetected firefoxDetected).state.ytdlp_transport_args []
      = [cfg.ytdlpPath, "--ignore-config"]
          ++ (get_video_information run cookies_path
              chromeDetected edgeDetected firefoxDetected).state.ytdlp_auth_args
          ++ (get_video_information run cookies_path
              chromeDetected edgeDetected firefoxDetected).state.ytdlp_transport_args
          ++ download_cmd_rest cfg [])
    ∧ ((get_video_information run cookies_path
          chromeDetected edgeDetected firefoxDetected).state.ytdlp_auth_args = [] →
       (get_video_information run cookies_path
          chromeDetected edgeDetected firefoxDetected).state.ytdlp_transport_args = [] →
       download_cmd cfg
          (get_video_information run cookies_path
            chromeDetected edgeDetected firefoxDetected).state.ytdlp_auth_args
          (get_video_information run cookies_path
            chromeDetected edgeDetected firefoxDetected).state.ytdlp_transport_args []
        = [cfg.ytdlpPath, "--ignore-config"] ++ download_cmd_rest cfg []) := by
  refine ⟨download_cmd_decomp cfg _ _ [], fun ha ht => ?_⟩
  rw [download_cmd_decomp cfg _ _ [], ha, ht]
  simp

/-- A simulated tool that always succeeds immediately. -/
def okRunner : InfoRunner := fun _auth _t => ⟨0, "dump", ""⟩

/-- A concrete download configuration. -/
def cfgW : DownloadConfig :=
  ⟨"yt-dlp", some "/tools", "best", "/downloads", "https://vimeo.com/123"⟩

/-- C2 witness: after a fetch that needed no flags, the concrete download
command carries no auth or transport flags. -/
theorem C2_download_reuses_fetch_flags_witness :
    download_cmd cfgW
        (get_video_information okRunner none false false false).state.ytdlp_auth_args
        (get_video_information okRunner none false false false).state.ytdlp_transport_args []
      = [cfgW.ytdlpPath, "--ignore-config"] ++ download_cmd_rest cfgW [] :=
  (C2_download_reuses_fetch_flags okRunner none false false false cfgW).2
    (by decide) (by decide)

/-- Result of one `run_once` inside `download_video`: the subprocess exit
code, the captured destination file (if any), and the bounded output tail. -/
structure DlResult where
  returncode : Int
  downloaded_file : Option String
  output_tail : List String
deriving DecidableEq, Repr

/-- A download oracle: maps `extra_args` to the result of `run_once`. -/
abbrev DlRunner := List String → DlResult

/-- Final outcome of `download_video`: `show_completion` or the failure
details passed to the error dialog. -/
inductive DlOutcome where
  | completion (file : Option String)
  | failure (details : String)
deriving DecidableEq, Repr

/-- Embeds the retry control flow of `download_video` (lines 1277-1291):
run once; if the exit code is non-zero and the formatted output tail matches
the SSL heuristic, run exactly once more with `--no-check-certificate` added;
report completion iff the last run exited zero. The second component records
the `extra_args` of every invocation, in order. -/
def download_video (run : DlRunner) : DlOutcome × List (List String) :=
  if (run []).returncode ≠ 0
      ∧ is_ssl_related_error (format_recent_lines (run []).output_tail 30).toList = true then
    if (run ["--no-check-certificate"]).returncode = 0 then
      (.completion (run ["--no-check-certificate"]).downloaded_file,
        [[], ["--no-check-certificate"]])
    else
      (.failure (format_recent_lines (run ["--no-check-certificate"]).output_tail 30),
        [[], ["--no-check-certificate"]])
  else
    if (run []).returncode = 0 then (.completion (run []).downloaded_file, [[]])
    else (.failure (format_recent_lines (run []).output_tail 30), [[]])

/-- C3: every failing download whose output tail matches the SSL heuristic is
retried exactly once with `--no-check-certificate` added — the recorded
invocations are exactly `[[], ["--no-check-certificate"]]` whatever the retry
does; when the retry exits zero the final result is completion, when it also
fails the final result is failure (still after exactly two invocations); a
non-zero exit whose tail does not match the heuristic is never retried (one
invocation, reported as failure). -/
theorem C3_download_ssl_retry (run : DlRunner) :
    ((run []).returncode ≠ 0 →
      is_ssl_related_error (format_recent_lines (run []).output_tail 30).toList = true →
      (download_video run).2 = [[], ["--no-check-certificate"]]
        ∧ ((run ["--no-check-certificate"]).returncode = 0 →
            (download_video run).1
              = .completion (run ["--no-check-certificate"]).downloaded_file)
        ∧ ((run ["--no-check-certificate"]).returncode ≠ 0 →
            (download_video run).1
              = .failure (format_recent_lines
                  (run ["--no-check-certificate"]).output_tail 30)))
    ∧ ((run []).returncode ≠ 0 →
      is_ssl_related_error (format_recent_lines (run []).output_tail 30).toList = false →
      download_video run
        = (.failure (format_recent_lines (run []).output_tail 30), [[]])) := by
  constructor
  · intro hrc hssl
    unfold download_video
    rw [if_pos ⟨hrc, hssl⟩]
    by_cases hretry : (run ["--no-check-certificate"]).returncode = 0
    · rw [if_pos hretry]
      exact ⟨rfl, fun _ => rfl, fun hn => absurd hretry hn⟩
    · rw [if_neg hretry]
      exact ⟨rfl, fun h0 => absurd h0 hretry, fun _ => rfl⟩
  · intro hrc hssl
    unfold download_video
    have hneg : ¬((run []).returncode ≠ 0
        ∧ is_ssl_related_error (format_recent_lines (run []).output_tail 30).toList = true) := by
      intro hand
      rw [hssl] at hand
      exact absurd hand.2 (by decide)
    rw [if_neg hneg, if_neg hrc]

/-- A simulated download failing once with SSL output and succeeding with the
override. -/
def sslRetryRunner : DlRunner := fun extra =>
  if extra = ["--no-check-certificate"] then ⟨0, some "video.mp4", ["[download] 100%"]⟩
  else ⟨1, none, ["ERROR: SSL: CERTIFICATE_VERIFY_FAILED"]⟩

/-- C3 witness: the concrete SSL-failing download records exactly the two
invocations and completes on the override retry. -/
theorem C3_download_ssl_retry_witness :
    (download_video sslRetryRunner).2 = [[], ["--no-check-certificate"]]
    ∧ (download_video sslRetryRunner).1 = .completion (some "video.mp4") := by
  have h := (C3_download_ssl_retry sslRetryRunner).1 (by decide) (by decide)
  exact ⟨h.1, h.2.1 (by decide)⟩

/-- GUI-visible events issued by the download/cancel handlers. -/
inductive UiEvent where
  | terminateProcess
  | infoBox (title msg : String)
  | errorBox (title msg : String)
  | completionScreen (file : Option String)
  | urlEntryScreen
deriving DecidableEq, Repr

/-- Embeds the tail of `download_video` (lines 1282-1291): completion screen
on exit code zero, otherwise the generic failure dialog (with the output tail
appended when non-empty) and a return to the URL entry screen. -/
def download_finish_events (run : DlRunner) : List UiEvent :=
  match (download_video run).1 with
  | .completion f => [.completionScreen f]
  | .failure d =>
      [.errorBox "Error"
          (if d = "" then "Failed to download the video."
            else "Failed to download the video.\n\n" ++ d),
        .urlEntryScreen]

/-- Embeds `cancel_download` (lines 1307-1316): terminate the subprocess when
one exists, show the "Download was cancelled" info box, return to the URL
entry screen. -/
def cancel_download_events (processExists : Bool) : List UiEvent :=
  (if processExists then [.terminateProcess] else [])
    ++ [.infoBox "Cancelled" "Download was cancelled", .urlEntryScreen]

/-- A download run terminated by cancellation: the killed subprocess exits
non-zero and its tail holds ordinary progress output. -/
def terminatedRunner : DlRunner := fun _ =>
  ⟨1, none, ["[download]  42.0% of 10.00MiB at 1.00MiB/s ETA 00:05"]⟩

/-- C4: the code contradicts the claim. Cancelling an in-flight download
terminates the subprocess and shows the distinct "Download was cancelled"
info box, but the worker thread then observes the terminated run's non-zero
exit code (whose tail is not SSL-related) and additionally presents the
generic "Failed to download the video." failure dialog — so the outcome is
not *never* presented as a generic failure message. -/
theorem C4_cancel_also_reports_generic_failure :
    cancel_download_events true
      = [.terminateProcess, .infoBox "Cancelled" "Download was cancelled", .urlEntryScreen]
    ∧ download_finish_events terminatedRunner
      = [.errorBox "Error"
            ("Failed to download the video.\n\n"
              ++ "[download]  42.0% of 10.00MiB at 1.00MiB/s ETA 00:05"),
          .urlEntryScreen] := by
  constructor
  · rfl
  · decide

/-- Python `str.isspace` characters for ASCII text, as used by `str.strip()`. -/
def pyIsSpace (c : Char) : Bool :=
  c == ' ' || c == '\t' || c == '\n' || c == '\r' || c == '\x0b' || c == '\x0c'

/-- Python `s.strip()` on ASCII text. -/
def pyStrip (s : List Char) : List Char :=
  ((s.dropWhile pyIsSpace).reverse.dropWhile pyIsSpace).reverse

/-- UI inputs read by `start_download`: the dropdown lookup result
(`quality_values.get(selected_option)`), the save-location checkbox, the
computed Downloads-folder path, the custom path entry, and whether that
custom path is an existing directory. -/
structure StartInput where
  quality_lookup : Option String
  save_to_downloads : Bool
  downloads_path : String
  custom_path : String
  custom_path_is_dir : Bool
deriving DecidableEq, Repr

/-- Download-related state of the `vimeograb_gui.py` `VimeoGrabGUI` object. -/
structure Gui2State where
  download_in_progress : Bool
  ui_state : String
  selected_quality : String
  download_path : String
deriving DecidableEq, Repr

/-- Embeds `start_download` of `vimeograb_gui.py` (lines 494-565): ignore the
request while `download_in_progress` is set; otherwise set the flag, resolve
quality (defaulting to "best"), resolve the destination (resetting the flag
and aborting on an invalid custom path), set the UI state and start the
download thread. The boolean result records whether a thread was started. -/
def start_download_v2 (st : Gui2State) (inp : StartInput) : Gui2State × Bool :=
  if st.download_in_progress then (st, false)
  else
    if inp.save_to_downloads then
      (⟨true, "downloading", inp.quality_lookup.getD "best", inp.downloads_path⟩, true)
    else
      if String.mk (pyStrip inp.custom_path.toList) = "" || !inp.custom_path_is_dir then
        (⟨false, st.ui_state, inp.quality_lookup.getD "best", st.download_path⟩, false)
      else
        (⟨true, "downloading", inp.quality_lookup.getD "best",
          String.mk (pyStrip inp.custom_path.toList)⟩, true)

/-- Download-related state of the `VimeoGrabber_GUI_v.1.1.2.py` object:
`download_thread_live` records whether `self.download_thread` still refers to
a running thread — an environment fact this file's `start_download` never
consults (the class has no in-progress flag). -/
structure Gui112State where
  selected_quality : String
  download_path : String
  download_thread_live : Bool
deriving DecidableEq, Repr

/-- Embeds `start_download` of `VimeoGrabber_GUI_v.1.1.2.py`
(lines 1054-1104): resolve quality and destination and start a new download
thread unconditionally — there is no in-progress gate. -/
def start_download_v112 (st : Gui112State) (inp : StartInput) : Gui112State × Bool :=
  if inp.save_to_downloads then
    (⟨inp.quality_lookup.getD "best", inp.downloads_path, true⟩, true)
  else
    if String.mk (pyStrip inp.custom_path.toList) = "" || !inp.custom_path_is_dir then
      (⟨inp.quality_lookup.getD "best", st.download_path, st.download_thread_live⟩, false)
    else
      (⟨inp.quality_lookup.getD "best",
        String.mk (pyStrip inp.custom_path.toList), true⟩, true)

/-- C5 counterexample: in `VimeoGrabber_GUI_v.1.1.2.py`, invoking
`start_download` while a download thread is already live starts another
download thread and mutates the download state — there is no in-progress
gate, so the claim fails on this file at this concrete input. -/
theorem C5_v112_ungated_counterexample :
    (start_download_v112 ⟨"best", "/downloads", true⟩
        ⟨some "720", true, "/home/user/Downloads", "", false⟩).2 = true
    ∧ (start_download_v112 ⟨"best", "/downloads", true⟩
        ⟨some "720", true, "/home/user/Downloads", "", false⟩).1
      ≠ ⟨"best", "/downloads", true⟩ := by
  decide

/-- C5 (amended): in `vimeograb_gui.py`, `start_download` is gated on the
`download_in_progress` flag — while it is set, the request is ignored: no
thread is started and the state is unchanged. In
`VimeoGrabber_GUI_v.1.1.2.py` there is no such gate: `start_download` starts
a new download thread on every invocation with a valid destination, even
while a previous download is in flight. -/
theorem C5_start_download_gate_amended (st : Gui2State) (inp : StartInput)
    (h : st.download_in_progress = true) :
    start_download_v2 st inp = (st, false)
    ∧ ∀ (st1 : Gui112State) (inp1 : StartInput),
        inp1.save_to_downloads = true → (start_download_v112 st1 inp1).2 = true := by
  constructor
  · unfold start_download_v2
    rw [if_pos h]
  · intro st1 inp1 hsave
    unfold start_download_v112
    rw [if_pos hsave]

/-- C5 amended witness: a concrete in-progress state ignores the request;
a concrete v1.1.2 invocation starts a thread. -/
theorem C5_start_download_gate_amended_witness :
    start_download_v2 ⟨true, "downloading", "best", "/downloads"⟩
        ⟨some "720", true, "/home/user/Downloads", "", false⟩
      = (⟨true, "downloading", "best", "/downloads"⟩, false)
    ∧ (start_download_v112 ⟨"best", "/downloads", true⟩
        ⟨some "720", true, "/home/user/Downloads", "", false⟩).2 = true :=
  ⟨(C5_start_download_gate_amended ⟨true, "downloading", "best", "/downloads"⟩
      ⟨some "720", true, "/home/user/Downloads", "", false⟩ rfl).1,
   (C5_start_download_gate_amended ⟨true, "downloading", "best", "/downloads"⟩
      ⟨some "720", true, "/home/user/Downloads", "", false⟩ rfl).2
     ⟨"best", "/downloads", true⟩
     ⟨some "720", true, "/home/user/Downloads", "", false⟩ rfl⟩

/-- The characters `urllib.parse` accepts inside a URL scheme. -/
def scheme_chars : List Char :=
  "abcdefghijklmnopqrstuvwxyzABCDEFGHIJKLMNOPQRSTUVWXYZ0123456789+-.".toList

def isAsciiAlpha (c : Char) : Bool :=
  ('a' ≤ c && c ≤ 'z') || ('A' ≤ c && c ≤ 'Z')

/-- Modelled after CPython `urllib.parse.urlsplit`: tab, CR and LF are
removed from the whole URL before any parsing
(`_UNSAFE_URL_BYTES_TO_REMOVE`). -/
def removeUnsafeUrlBytes (s : List Char) : List Char :=
  s.filter (fun c => !(c == '\t' || c == '\r' || c == '\n'))

/-- Modelled after CPython `urlsplit`: strip a valid `scheme:` prefix — a
first occurrence of `:` at a positive index, with everything before it drawn
from the scheme characters and starting with an ASCII letter. -/
def url_after_scheme (s : List Char) : List Char :=
  match s.findIdx? (fun c => c == ':') with
  | some i =>
      if decide (0 < i) && (s.take i).all (fun c => scheme_chars.contains c)
          && (s.take 1).all isAsciiAlpha then
        s.drop (i + 1)
      else s
  | none => s

/-- Modelled after CPython `urlsplit`'s netloc extraction, as `urlparse`
calls it: after removing unsafe bytes and the scheme, a netloc is present
only when the remainder starts with `//`, extending to the first `/`, `?` or
`#`; a netloc containing `[` without `]` (or `]` without `[`) raises
`ValueError("Invalid IPv6 URL")`, modelled as `none`. -/
def urlparse_netloc (s : List Char) : Option (List Char) :=
  if (url_after_scheme (removeUnsafeUrlBytes s)).take 2 = ['/', '/'] then
    if ((((url_after_scheme (removeUnsafeUrlBytes s)).drop 2).takeWhile
          (fun c => !(c == '/' || c == '?' || c == '#'))).contains '['
        && !(((url_after_scheme (removeUnsafeUrlBytes s)).drop 2).takeWhile
          (fun c => !(c == '/' || c == '?' || c == '#'))).contains ']')
      || ((((url_after_scheme (removeUnsafeUrlBytes s)).drop 2).takeWhile
          (fun c => !(c == '/' || c == '?' || c == '#'))).contains ']'
        && !(((url_after_scheme (removeUnsafeUrlBytes s)).drop 2).takeWhile
          (fun c => !(c == '/' || c == '?' || c == '#'))).contains '[') then
      none
    else
      some (((url_after_scheme (removeUnsafeUrlBytes s)).drop 2).takeWhile
        (fun c => !(c == '/' || c == '?' || c == '#')))
  else some []

/-- The action `process_url` takes: an error dialog (and no fetch), storing
the URL and starting the information-fetch thread, or a `ValueError` raised
by `urlparse` propagating uncaught out of the handler (no dialog, no
fetch). -/
inductive UrlAction where
  | errorDialog (title msg : String)
  | startFetch (url : List Char)
  | uncaughtValueError
deriving DecidableEq, Repr

/-- The netloc check of `process_url` applied to the parse result: an
uncaught `ValueError` when the parse raised; otherwise the
`not parsed_url.netloc or 'vimeo' not in parsed_url.netloc` test. -/
def process_url_checked (stripped : List Char) (parsed : Option (List Char)) : UrlAction :=
  match parsed with
  | none => .uncaughtValueError
  | some netloc =>
      if netloc = [] ∨ ¬("vimeo".toList <:+: netloc) then
        .errorDialog "Error" "Invalid Vimeo URL"
      else .startFetch stripped

/-- Embeds `process_url` (identical in both GUI files; v1.1.2 lines 674-694):
strip the entry text; reject the empty string; parse (a `ValueError` from
`urlparse` escapes the handler); reject when the netloc is empty or lacks the
substring `vimeo`; otherwise store the URL and start the information-fetch
thread. -/
def process_url (input : List Char) : UrlAction :=
  if pyStrip input = [] then .errorDialog "Error" "Please enter a Vimeo URL"
  else process_url_checked (pyStrip input) (urlparse_netloc (pyStrip input))

theorem urlparse_netloc_nil : urlparse_netloc [] = some [] := by decide

/-- C10 counterexample: the claim says every non-accepted string is rejected
with an error dialog, but `'https://[vimeo/1'` makes `urlparse` raise
`ValueError("Invalid IPv6 URL")` inside `process_url`, which catches
nothing: no dialog is shown (and no fetch starts). -/
theorem C10_ipv6_uncaught_counterexample :
    process_url "https://[vimeo/1".toList = .uncaughtValueError
    ∧ ∀ t m, process_url "https://[vimeo/1".toList ≠ .errorDialog t m := by
  have h0 : process_url "https://[vimeo/1".toList = .uncaughtValueError := by decide
  exact ⟨h0, fun t m h => by rw [h0] at h; exact UrlAction.noConfusion h⟩

/-- C10 (amended): the entry-point URL check accepts exactly those inputs
whose parse succeeds with a non-empty network location containing `vimeo` as
a substring (`urlsplit` removes interior tab/CR/LF before parsing, so a
vimeo URL with an interior tab is accepted); inputs that parse successfully
but fail the check get an error dialog and no fetch; inputs whose parse
raises `ValueError` (a network location with `[` and `]` unbalanced)
propagate the exception uncaught — no dialog and no fetch; in particular a
non-Vimeo domain whose hostname merely contains `vimeo`
(`https://fakevimeo.example.com/1`) is accepted and passed to the fetch. -/
theorem C10_url_check_amended (input : List Char) :
    (process_url input = .startFetch (pyStrip input)
      ↔ (∃ netloc, urlparse_netloc (pyStrip input) = some netloc
          ∧ netloc ≠ [] ∧ "vimeo".toList <:+: netloc))
    ∧ (∀ netloc, urlparse_netloc (pyStrip input) = some netloc →
        (netloc = [] ∨ ¬("vimeo".toList <:+: netloc)) →
        ∃ msg, process_url input = .errorDialog "Error" msg)
    ∧ (urlparse_netloc (pyStrip input) = none →
        process_url input = .uncaughtValueError)
    ∧ process_url "https://fakevimeo.example.com/1".toList
        = .startFetch "https://fakevimeo.example.com/1".toList
    ∧ process_url "https://vi\tmeo.com/1".toList
        = .startFetch "https://vi\tmeo.com/1".toList := by
  refine ⟨?_, ?_, ?_, by decide, by decide⟩
  · by_cases h0 : pyStrip input = []
    · unfold process_url
      rw [if_pos h0, h0, urlparse_netloc_nil]
      constructor
      · intro h
        exact absurd h (by simp)
      · intro hc
        obtain ⟨n, hn, hne, -⟩ := hc
        injection hn with heq
        exact absurd heq.symm hne
    · unfold process_url
      rw [if_neg h0]
      rcases hopt : urlparse_netloc (pyStrip input) with - | netloc
      · simp only [process_url_checked]
        constructor
        · intro h
          exact absurd h (by simp)
        · intro hc
          obtain ⟨n, hn, -, -⟩ := hc
          exact Option.noConfusion hn
      · simp only [process_url_checked]
        by_cases hrej : netloc = [] ∨ ¬("vimeo".toList <:+: netloc)
        · rw [if_pos hrej]
          constructor
          · intro h
            exact absurd h (by simp)
          · intro hc
            obtain ⟨n, hn, hne, hin⟩ := hc
            injection hn with heq
            subst heq
            rcases hrej with h | h
            · exact absurd h hne
            · exact absurd hin h
        · rw [if_neg hrej]
          rw [not_or, not_not] at hrej
          exact ⟨fun _ => ⟨netloc, rfl, hrej.1, hrej.2⟩, fun _ => rfl⟩
  · intro netloc hopt hrej
    by_cases h0 : pyStrip input = []
    · exact ⟨"Please enter a Vimeo URL", by unfold process_url; rw [if_pos h0]⟩
    · refine ⟨"Invalid Vimeo URL", ?_⟩
      unfold process_url
      rw [if_neg h0, hopt]
      simp only [process_url_checked]
      rw [if_pos hrej]
  · intro hopt
    by_cases h0 : pyStrip input = []
    · rw [h0, urlparse_netloc_nil] at hopt
      exact Option.noConfusion hopt
    · unfold process_url
      rw [if_neg h0, hopt]
      simp only [process_url_checked]

/-- C10 amended witness: the concrete look-alike domain is accepted and
forwarded to the information fetch. -/
theorem C10_url_check_amended_witness :
    process_url "https://fakevimeo.example.com/1".toList
      = .startFetch "https://fakevimeo.example.com/1".toList :=
  (C10_url_check_amended []).2.2.2.1

end VimeoGrab
